import Mathlib

/-!
Verification of the single-bundle catalog composition pipeline
(`internal/olm/operator/bundle/install.go`): format classification,
bundle-into-index merging, minimal catalog building, validation and
serialization of declarative catalog snapshots.

The declarative-config data model and the operations `addBundleToIndexImage`,
`createFBC`, `stringifyDecConfig`, `validateFBC` and the relevant fragment of
`setup` are embedded as executable Lean functions.  External collaborators
(image rendering, label retrieval, package init, JSON encoding, model
validation) are either passed in as explicit arguments (render results) or
modelled from the specification, as marked in their doc comments.
-/

namespace OperatorSDKBundle

/-- A channel entry: one version's placement within a channel (declcfg
`ChannelEntry`).  The Go zero value of `Replaces`/`SkipRange` is the empty
string and of `Skips` the empty slice. -/
structure ChannelEntry where
  Name : String
  Replaces : String
  Skips : List String
  SkipRange : String
  deriving DecidableEq

/-- A package record (declcfg `Package`): identity, default channel and
descriptive metadata. -/
structure Package where
  Schema : String
  Name : String
  DefaultChannel : String
  Description : String
  deriving DecidableEq

/-- A channel record (declcfg `Channel`): belongs to one package and carries
an ordered sequence of entries. -/
structure Channel where
  Schema : String
  Name : String
  Package : String
  Entries : List ChannelEntry
  deriving DecidableEq

/-- A bundle record (declcfg `Bundle`); the composition core treats its
content as opaque beyond its identity, so the remaining fields are collapsed
into an opaque properties string. -/
structure Bundle where
  Schema : String
  Name : String
  Package : String
  Image : String
  Properties : String
  deriving DecidableEq

/-- A passthrough record of a schema unknown to the structural model
(declcfg `Meta`), preserved verbatim across merges. -/
structure Meta where
  Schema : String
  Package : String
  Blob : String
  deriving DecidableEq

/-- A declarative catalog snapshot (declcfg `DeclarativeConfig`): four ordered
sequences of records. -/
structure DeclarativeConfig where
  Packages : List Package
  Channels : List Channel
  Bundles : List Bundle
  Others : List Meta
  deriving DecidableEq

/-- Outcome of `addBundleToIndexImage` after both renders succeeded:
a returned config with nil error, the dead branch returning `(nil, nil)`
(the impossible `len(bundles) < 0` guard), or a Go runtime panic
(index out of range). -/
inductive MergeResult where
  | ok : DeclarativeConfig → MergeResult
  | nilNil : MergeResult
  | panicked : MergeResult
  deriving DecidableEq

/-- The package-presence scan of `addBundleToIndexImage` (install.go
237-246): `packageNotPresent` starts `true`; when the bundle config has at
least one package, it is cleared exactly when some package of the index
config is `reflect.DeepEqual` to `bundleDeclConfig.Packages[0]`. -/
def packageNotPresent (imageDeclConfig bundleDeclConfig : DeclarativeConfig) : Bool :=
  match bundleDeclConfig.Packages.head? with
  | none => true
  | some p0 => !(imageDeclConfig.Packages.any fun q => q == p0)

/-- `addBundleToIndexImage` (install.go 232-262), taking the two successful
render results as inputs.  The `len(bundleDeclConfig.Bundles) < 0` guard of
the source can never fire (Go `len` is nonnegative); it is kept verbatim,
returning `(nil, nil)` as the source does.  When the append branch is taken
with an empty `Packages` sequence, the source indexes
`bundleDeclConfig.Packages[0]` out of range and panics. -/
def addBundleToIndexImage (imageDeclConfig bundleDeclConfig : DeclarativeConfig) :
    MergeResult :=
  if (bundleDeclConfig.Bundles.length : Int) < 0 then
    MergeResult.nilNil
  else if packageNotPresent imageDeclConfig bundleDeclConfig
      && bundleDeclConfig.Bundles.length > 0
      && bundleDeclConfig.Channels.length > 0 then
    match bundleDeclConfig.Packages.head?, bundleDeclConfig.Bundles.head?,
        bundleDeclConfig.Channels.head? with
    | some p0, some b0, some c0 =>
        MergeResult.ok
          { imageDeclConfig with
            Packages := imageDeclConfig.Packages ++ [p0]
            Bundles := imageDeclConfig.Bundles ++ [b0]
            Channels := imageDeclConfig.Channels ++ [c0]
            Others := imageDeclConfig.Others ++
              (match bundleDeclConfig.Others.head? with
               | some o0 => [o0]
               | none => []) }
    | _, _, _ => MergeResult.panicked
  else
    MergeResult.ok imageDeclConfig

/-- The context struct `FBCContext` driving the minimal catalog build
(install.go 49-60); the `DescriptionReader` stream is modelled as the string
it yields, passed separately to `createFBC`. -/
structure FBCContext where
  BundleImage : String
  Package : String
  DefaultChannel : String
  FBCName : String
  FBCDirPath : String
  FBCDirName : String
  ChannelSchema : String
  ChannelName : String
  ChannelEntries : List ChannelEntry
  deriving DecidableEq

/-- Modelled from the spec: the external collaborator
`initPackage(name, defaultChannel, descriptionStream) -> Package | InitError`
(spec section 6; `action.Init.Run` is not part of this repository).  It
"builds a package record with descriptive metadata" from the given package
name, default channel and description input; failure (`InitError`, malformed
description input) is outside the inputs this development exercises, so the
model is total. -/
def initRun (pkg defaultChannel descr : String) : Package :=
  { Schema := "olm.package", Name := pkg, DefaultChannel := defaultChannel,
    Description := descr }

/-- Outcome of `createFBC`: a returned config with nil error, the
"error in expected length of bundles" error, or the dead
`len(declcfg.Bundles) < 0` branch that returns `(nil, nil)`. -/
inductive CreateResult where
  | ok : DeclarativeConfig → CreateResult
  | errLength : CreateResult
  | nilNil : CreateResult
  deriving DecidableEq

/-- `createFBC` (install.go 266-322), taking the successful bundle-image
render result and the description stream content as inputs.  The
`len(declcfg.Bundles) < 0` guard is dead and kept verbatim (it returns
`(nil, nil)`); the live guard requires exactly one rendered bundle, else the
"error in expected length of bundles" error is returned.  The package record
comes from `action.Init` called with `f.Package` and — as in the source —
`f.ChannelName` (not `f.DefaultChannel`) as the default channel; the channel
record is synthesized from the context fields; `Others` of the render result
pass through untouched. -/
def createFBC (f : FBCContext) (rendered : DeclarativeConfig) (descr : String) :
    CreateResult :=
  if (rendered.Bundles.length : Int) < 0 then
    CreateResult.nilNil
  else if rendered.Bundles.length == 1 then
    let declcfgpackage := initRun f.Package f.ChannelName descr
    let channel : Channel :=
      { Schema := f.ChannelSchema, Name := f.ChannelName, Package := f.Package,
        Entries := f.ChannelEntries }
    CreateResult.ok
      { rendered with
        Bundles := match rendered.Bundles.head? with
          | some b0 => [b0]
          | none => []
        Packages := [declcfgpackage]
        Channels := [channel] }
  else
    CreateResult.errLength

/-- Modelled from the spec: the structural validation performed by the
external `declarativeconfig.ConvertToModel` + `model.Validate` pair wrapped
by `validateFBC` (spec section 4.5; the model package is not part of this
repository).  The listed integrity checks: every channel's package must
exist, every channel entry must reference a bundle that exists in the same
package, default channels must be among the package's declared channels, no
duplicate package names. -/
def validateSnapshot (cfg : DeclarativeConfig) : Bool :=
  (cfg.Channels.all fun c => cfg.Packages.any fun p => p.Name == c.Package) &&
  (cfg.Channels.all fun c => c.Entries.all fun e =>
    cfg.Bundles.any fun b => b.Name == e.Name && b.Package == c.Package) &&
  (cfg.Packages.all fun p => cfg.Channels.any fun c =>
    c.Package == p.Name && c.Name == p.DefaultChannel) &&
  decide (cfg.Packages.map Package.Name).Nodup

/-- Modelled from the spec: the external serializer
`declarativeconfig.WriteJSON` wrapped by `stringifyDecConfig` (spec section
4.6; the encoder is not part of this repository).  A deterministic textual
encoding that writes one non-empty document per record of the snapshot, in
sequence order; a snapshot with no records therefore encodes to the empty
string. -/
def writeJSON (cfg : DeclarativeConfig) : String :=
  String.join
    ((cfg.Packages.map fun p =>
        "schema=" ++ p.Schema ++ " name=" ++ p.Name ++
        " defaultChannel=" ++ p.DefaultChannel ++ "\n") ++
     (cfg.Channels.map fun c =>
        "schema=" ++ c.Schema ++ " name=" ++ c.Name ++
        " package=" ++ c.Package ++ "\n") ++
     (cfg.Bundles.map fun b =>
        "schema=" ++ b.Schema ++ " name=" ++ b.Name ++
        " package=" ++ b.Package ++ " image=" ++ b.Image ++ "\n") ++
     (cfg.Others.map fun o =>
        "schema=" ++ o.Schema ++ " blob=" ++ o.Blob ++ "\n"))

/-- `stringifyDecConfig` (install.go 325-334): writes the declarative config
through the JSON encoder into a buffer and returns the buffer's content (the
encoder's internal-fault error path is not reachable for in-memory buffers,
per spec section 4.6 encoding is total over snapshots). -/
def stringifyDecConfig (declcfg : DeclarativeConfig) : String :=
  writeJSON declcfg

/-- Modelled from the spec: `registry.DefaultIndexImage`, the built-in
default index image reference injected by `BindFlags` (install.go 73); its
definition lives outside this repository slice, and `setup` only compares the
configured index reference against it for equality. -/
def DefaultIndexImage : String := "quay.io/operator-framework/opm:latest"

/-- Which composition path the label/default classification of `setup`
(install.go 124-170) selects: the merge path, the minimal-build path, or
neither. -/
inductive SetupPath where
  | mergePath : SetupPath
  | minimalBuild : SetupPath
  | noPath : SetupPath
  deriving DecidableEq

/-- The routing decision of `setup`: `addBundleToIndexImage` runs exactly
when a database-location or configs-location label is present AND the index
image differs from the built-in default (install.go 128-138);
`createFBC` runs exactly when the index image equals the built-in default
(install.go 140-170).  When neither holds, no snapshot is built. -/
def setupPath (hasDBLabel hasFBCLabel : Bool) (indexImage : String) : SetupPath :=
  if (hasDBLabel || hasFBCLabel) && !(indexImage == DefaultIndexImage) then
    SetupPath.mergePath
  else if indexImage == DefaultIndexImage then
    SetupPath.minimalBuild
  else
    SetupPath.noPath

/-- `strings.Split(label, ",")[0]` as `setup` uses it (install.go 142, 196):
the prefix of the label before its first comma (the whole label when it has
no comma; the empty string for the empty label — Go `Split` always yields at
least one element, so the index is safe). -/
def firstCommaField (label : String) : String :=
  String.mk (label.data.takeWhile fun ch => !(ch == ','))

/-- The `FBCContext` that `setup` constructs for the minimal-build path
(install.go 140-160): package and channel names come from the bundle's
labels (`bundleChannel` is the text before the first comma of the channels
label), the channel schema is the literal `"olm.channel"`, and the single
channel entry names the CSV with no predecessor relations. -/
def mkMinimalFBCContext (bundleImage packageLabel channelsLabel csvName
    dirName fileName : String) : FBCContext :=
  let bundleChannel := firstCommaField channelsLabel
  let entry : ChannelEntry :=
    { Name := csvName, Replaces := "", Skips := [], SkipRange := "" }
  { BundleImage := bundleImage
    FBCDirName := dirName
    FBCName := fileName
    FBCDirPath := ""
    Package := packageLabel
    DefaultChannel := bundleChannel
    ChannelSchema := "olm.channel"
    ChannelName := bundleChannel
    ChannelEntries := [entry] }

/-- Outcome of the composition fragment of `setup` (install.go 114-204):
the catalog content string handed on to the installer fields, one of the
returned errors, or a Go runtime panic. -/
inductive SetupResult where
  | ok : String → SetupResult
  | errMergeRender : SetupResult
  | errCreate : SetupResult
  | errValidate : SetupResult
  | errEmptyContent : SetupResult
  | panicked : SetupResult
  deriving DecidableEq

/-- The merge-path stage of `setup` (install.go 128-138): when the label
classification and non-default index select the merge path, run
`addBundleToIndexImage` on the two render results; a returned error aborts
`setup`, otherwise `declcfg` holds the merge output.  Off the merge path
`declcfg` keeps its zero value `nil` (`none`). -/
def setupMergeStage (hasDBLabel hasFBCLabel : Bool) (indexImage : String)
    (indexRendered bundleRendered : DeclarativeConfig) :
    Except SetupResult (Option DeclarativeConfig) :=
  if (hasDBLabel || hasFBCLabel) && !(indexImage == DefaultIndexImage) then
    match addBundleToIndexImage indexRendered bundleRendered with
    | MergeResult.ok cfg => Except.ok (some cfg)
    | MergeResult.nilNil => Except.ok none
    | MergeResult.panicked => Except.error SetupResult.panicked
  else
    Except.ok none

/-- The minimal-build stage of `setup` (install.go 140-170): when the index
image is the built-in default, run `createFBC` and overwrite `declcfg` with
its output (an error aborts `setup`); otherwise `declcfg` flows through
unchanged. -/
def setupMinimalStage (indexImage : String) (declcfg : Option DeclarativeConfig)
    (f : FBCContext) (minimalRendered : DeclarativeConfig) (descr : String) :
    Except SetupResult (Option DeclarativeConfig) :=
  if indexImage == DefaultIndexImage then
    match createFBC f minimalRendered descr with
    | CreateResult.ok cfg => Except.ok (some cfg)
    | CreateResult.errLength => Except.error SetupResult.errCreate
    | CreateResult.nilNil => Except.ok none
  else
    Except.ok declcfg

/-- `validateFBC` applied as `setup` does at install.go 173: `validateFBC`
dereferences its argument (`*declcfg`, install.go 339), so a `nil` snapshot
is a runtime panic, not a returned classification error; a non-nil snapshot
is validated structurally. -/
def setupValidateStage : Option DeclarativeConfig → Except SetupResult DeclarativeConfig
  | none => Except.error SetupResult.panicked
  | some cfg =>
      if validateSnapshot cfg then Except.ok cfg
      else Except.error SetupResult.errValidate

/-- The serialization tail of `setup` (install.go 179-204): stringify the
validated config and reject an empty result with the
"File-Based Catalog contents cannot be empty" error before any installer
field is populated. -/
def setupFinalize (declcfg : DeclarativeConfig) : SetupResult :=
  let content := stringifyDecConfig declcfg
  if content == "" then SetupResult.errEmptyContent
  else SetupResult.ok content

/-- The composition fragment of `setup` (install.go 114-204) end to end:
merge stage, minimal-build stage, validation of the accumulated `declcfg`,
serialization and the empty-content guard.  Render results and the
description stream are inputs (their retrieval is external). -/
def setupRun (hasDBLabel hasFBCLabel : Bool) (indexImage : String)
    (indexRendered bundleRendered : DeclarativeConfig)
    (f : FBCContext) (minimalRendered : DeclarativeConfig) (descr : String) :
    SetupResult :=
  match setupMergeStage hasDBLabel hasFBCLabel indexImage indexRendered bundleRendered with
  | Except.error e => e
  | Except.ok d1 =>
    match setupMinimalStage indexImage d1 f minimalRendered descr with
    | Except.error e => e
    | Except.ok d2 =>
      match setupValidateStage d2 with
      | Except.error e => e
      | Except.ok cfg => setupFinalize cfg

/-! Concrete sample records used to exercise the pipeline on closed inputs. -/

def pkgFoo : Package :=
  { Schema := "olm.package", Name := "foo", DefaultChannel := "stable",
    Description := "" }

/-- Same package name as `pkgFoo` but different descriptive metadata. -/
def pkgFooVariant : Package :=
  { pkgFoo with Description := "an older description of foo" }

def entryFoo : ChannelEntry :=
  { Name := "foo.v1.0.0", Replaces := "", Skips := [], SkipRange := "" }

def chStable : Channel :=
  { Schema := "olm.channel", Name := "stable", Package := "foo",
    Entries := [entryFoo] }

def bdlFoo : Bundle :=
  { Schema := "olm.bundle", Name := "foo.v1.0.0", Package := "foo",
    Image := "registry.example/foo-bundle:v1.0.0", Properties := "" }

def bdlFoo2 : Bundle :=
  { bdlFoo with Name := "foo.v1.1.0" }

def emptyConfig : DeclarativeConfig :=
  { Packages := [], Channels := [], Bundles := [], Others := [] }

/-- A well-formed single-bundle render result for package `foo`. -/
def bundleSrcCfg : DeclarativeConfig :=
  { Packages := [pkgFoo], Channels := [chStable], Bundles := [bdlFoo],
    Others := [] }

/-- The minimal-build context `setup` forms for the `foo` bundle. -/
def fooMinimalCtx : FBCContext :=
  mkMinimalFBCContext "registry.example/foo-bundle:v1.0.0" "foo" "stable"
    "foo.v1.0.0" "/tmp/foo-index" "/tmp/foo-index/testFBC"

/-! Helper lemmas about the merge step. -/

theorem natCast_length_not_neg (n : Nat) : ¬ ((n : Int) < 0) := by omega

/-- When the append condition of install.go 248 is false the merge returns
the index config unchanged. -/
theorem addBundleToIndexImage_skip (t s : DeclarativeConfig)
    (h : (packageNotPresent t s && decide (0 < s.Bundles.length)
      && decide (0 < s.Channels.length)) = false) :
    addBundleToIndexImage t s = MergeResult.ok t := by
  unfold addBundleToIndexImage
  rw [if_neg (natCast_length_not_neg _)]
  simp only [h]
  simp

/-- When the append condition holds and the source has a first package, the
merge returns the index config with the source's first records appended. -/
theorem addBundleToIndexImage_append (t s : DeclarativeConfig)
    (p0 : Package) (ps : List Package) (b0 : Bundle) (bs : List Bundle)
    (c0 : Channel) (cs : List Channel)
    (hP : s.Packages = p0 :: ps) (hB : s.Bundles = b0 :: bs)
    (hC : s.Channels = c0 :: cs)
    (habs : packageNotPresent t s = true) :
    addBundleToIndexImage t s = MergeResult.ok
      { t with
        Packages := t.Packages ++ [p0],
        Bundles := t.Bundles ++ [b0],
        Channels := t.Channels ++ [c0],
        Others := t.Others ++
          (match s.Others.head? with
           | some o0 => [o0]
           | none => []) } := by
  unfold addBundleToIndexImage
  rw [if_neg (natCast_length_not_neg _)]
  rw [hP, hB, hC]
  simp [habs]

/-- After appending the source's first package, the presence scan finds it
(deep equality with itself), so `packageNotPresent` is cleared. -/
theorem packageNotPresent_after_append (t s : DeclarativeConfig)
    (p0 : Package) (hp : s.Packages.head? = some p0)
    (bs : List Bundle) (cs : List Channel) (os : List Meta) :
    packageNotPresent
      { Packages := t.Packages ++ [p0], Bundles := bs, Channels := cs,
        Others := os } s = false := by
  unfold packageNotPresent
  rw [hp]
  simp

/-! Claim theorems. -/

/-- Claim C1: the claim says every bundle-image render, on the merge path as
well as on the minimal-build path, must yield exactly one Bundle, and 0 or
2+ bundles must abort composition with the unexpected-bundle-count error.
The merge path never aborts: its guard is the dead `len(Bundles) < 0`
(install.go 232), so a 0-bundle render proceeds and returns the index
unchanged, and a 2-bundle render proceeds appending only the first bundle;
only `createFBC` (install.go 290-294) enforces the exactly-one contract. -/
theorem mergeBundleCountNotEnforced :
    addBundleToIndexImage emptyConfig
      { Packages := [pkgFoo], Channels := [chStable], Bundles := [],
        Others := [] } = MergeResult.ok emptyConfig ∧
    addBundleToIndexImage emptyConfig
      { Packages := [pkgFoo], Channels := [chStable],
        Bundles := [bdlFoo, bdlFoo2], Others := [] } =
      MergeResult.ok bundleSrcCfg ∧
    createFBC fooMinimalCtx
      { Packages := [], Channels := [], Bundles := [bdlFoo, bdlFoo2],
        Others := [] } "" = CreateResult.errLength := by
  refine ⟨by decide, by decide, by decide⟩

/-- Claim C2 counterexample: the database-location label alone does not
route to the merge path — with the label present but the index reference
equal to the built-in default, `setup` routes to the minimal-build path
(install.go 129 additionally requires a non-default index). -/
theorem labelledDefaultIndexRoutesToMinimalBuild :
    setupPath true false DefaultIndexImage = SetupPath.minimalBuild ∧
    ¬ setupPath true false DefaultIndexImage = SetupPath.mergePath := by
  decide

/-- Claim C2 (amended): presence of either catalog label routes to the merge
path only when the index reference also differs from the built-in default;
whenever the index reference equals the built-in default the composition
routes to the minimal-build path, labels or not. -/
theorem setupPathClassification (hasDB hasFBC : Bool) (idx : String) :
    ((hasDB || hasFBC) = true → idx ≠ DefaultIndexImage →
      setupPath hasDB hasFBC idx = SetupPath.mergePath) ∧
    (idx = DefaultIndexImage →
      setupPath hasDB hasFBC idx = SetupPath.minimalBuild) := by
  constructor
  · intro h1 h2
    have hbe : (idx == DefaultIndexImage) = false := by simpa using h2
    simp [setupPath, h1, hbe]
  · intro h
    subst h
    simp [setupPath]

/-- Claim C2 witness: a concrete labelled non-default index routes to the
merge path, and the default index routes to the minimal build. -/
theorem setupPathClassificationInstance :
    ((true || false) = true ∧ "registry.example/catalog:v2" ≠ DefaultIndexImage ∧
      setupPath true false "registry.example/catalog:v2" = SetupPath.mergePath) ∧
    setupPath false false DefaultIndexImage = SetupPath.minimalBuild :=
  ⟨⟨by decide, by decide,
    (setupPathClassification true false "registry.example/catalog:v2").1
      (by decide) (by decide)⟩,
   (setupPathClassification false false DefaultIndexImage).2 rfl⟩

/-- Claim C3: the claim says a source with zero packages always leaves the
target unchanged without failing, regardless of its Bundles and Channels.
The source code lacks that guard: with zero packages but at least one bundle
and one channel, `packageNotPresent` stays `true` and install.go 249 indexes
`bundleDeclConfig.Packages[0]` out of range — a runtime panic, not a clean
return.  Only when the bundle or channel sequence is also empty does the
merge return the target unchanged. -/
theorem mergeEmptyPackagesSourcePanics :
    addBundleToIndexImage emptyConfig
      { Packages := [], Channels := [chStable], Bundles := [bdlFoo],
        Others := [] } = MergeResult.panicked ∧
    addBundleToIndexImage emptyConfig
      { Packages := [], Channels := [], Bundles := [bdlFoo], Others := [] } =
      MergeResult.ok emptyConfig := by
  refine ⟨by decide, by decide⟩

/-- Claim C4: presence of the source package in the index is judged exactly
by deep structural equality of some target package with
`source.Packages[0]`; hence a source package sharing its name with a target
package but differing in another field is judged absent and appended,
leaving two package records with the same name. -/
theorem mergePresenceIsDeepEquality :
    (∀ target source : DeclarativeConfig, ∀ p0 : Package,
      source.Packages.head? = some p0 →
      (packageNotPresent target source = false ↔
        ∃ q ∈ target.Packages, q = p0)) ∧
    (addBundleToIndexImage
        { Packages := [pkgFooVariant], Channels := [], Bundles := [],
          Others := [] } bundleSrcCfg =
      MergeResult.ok
        { Packages := [pkgFooVariant, pkgFoo], Channels := [chStable],
          Bundles := [bdlFoo], Others := [] } ∧
      pkgFooVariant.Name = pkgFoo.Name ∧ pkgFooVariant ≠ pkgFoo) := by
  constructor
  · intro target source p0 hp
    unfold packageNotPresent
    rw [hp]
    simp
  · refine ⟨by decide, by decide, by decide⟩

/-- Claim C4 witness: the presence criterion instantiated at the concrete
duplicate-name configuration. -/
theorem mergePresenceIsDeepEqualityInstance :
    bundleSrcCfg.Packages.head? = some pkgFoo ∧
    (packageNotPresent
        { Packages := [pkgFooVariant], Channels := [], Bundles := [],
          Others := [] } bundleSrcCfg = false ↔
      ∃ q ∈ [pkgFooVariant], q = pkgFoo) :=
  ⟨rfl, mergePresenceIsDeepEquality.1 _ bundleSrcCfg pkgFoo rfl⟩

/-- Claim C5: with a non-default index reference and neither catalog label
present, no branch of `setup` constructs a snapshot (`declcfg` keeps its
zero value `nil`), yet `setup` still calls `validateFBC` on it rather than
returning a classification error; `validateFBC` dereferences the nil
pointer. -/
theorem setupUnlabelledNonDefaultReachesNilValidation (idx : String)
    (indexRendered bundleRendered minimalRendered : DeclarativeConfig)
    (f : FBCContext) (descr : String) (h : idx ≠ DefaultIndexImage) :
    setupPath false false idx = SetupPath.noPath ∧
    setupMergeStage false false idx indexRendered bundleRendered =
      Except.ok none ∧
    setupMinimalStage idx none f minimalRendered descr = Except.ok none ∧
    setupValidateStage none = Except.error SetupResult.panicked ∧
    setupRun false false idx indexRendered bundleRendered f minimalRendered
      descr = SetupResult.panicked := by
  have hbe : (idx == DefaultIndexImage) = false := by simpa using h
  refine ⟨?_, ?_, ?_, rfl, ?_⟩
  · simp [setupPath, hbe]
  · simp [setupMergeStage]
  · simp [setupMinimalStage, hbe]
  · simp [setupRun, setupMergeStage, setupMinimalStage, setupValidateStage,
      hbe]

/-- Claim C5 witness: the nil-snapshot validation outcome at a concrete
non-default, unlabelled index reference. -/
theorem setupUnlabelledNonDefaultReachesNilValidationInstance :
    "registry.example/custom-catalog:v1" ≠ DefaultIndexImage ∧
    (setupPath false false "registry.example/custom-catalog:v1" =
        SetupPath.noPath ∧
      setupMergeStage false false "registry.example/custom-catalog:v1"
        emptyConfig emptyConfig = Except.ok none ∧
      setupMinimalStage "registry.example/custom-catalog:v1" none
        fooMinimalCtx emptyConfig "" = Except.ok none ∧
      setupValidateStage none = Except.error SetupResult.panicked ∧
      setupRun false false "registry.example/custom-catalog:v1" emptyConfig
        emptyConfig fooMinimalCtx emptyConfig "" = SetupResult.panicked) :=
  ⟨by decide,
   setupUnlabelledNonDefaultReachesNilValidation
     "registry.example/custom-catalog:v1" emptyConfig emptyConfig emptyConfig
     fooMinimalCtx "" (by decide)⟩

/-- Claim C6: when the source package is judged absent and the source has a
first package, bundle and channel, the merge appends exactly those first
records, growing each of the three sequences by one, and appends the first
Other record exactly when the source has one. -/
theorem mergeAppendCorrectness (target source : DeclarativeConfig)
    (p0 : Package) (ps : List Package) (b0 : Bundle) (bs : List Bundle)
    (c0 : Channel) (cs : List Channel)
    (hP : source.Packages = p0 :: ps) (hB : source.Bundles = b0 :: bs)
    (hC : source.Channels = c0 :: cs)
    (habs : packageNotPresent target source = true) :
    ∃ cfg, addBundleToIndexImage target source = MergeResult.ok cfg ∧
      cfg.Packages = target.Packages ++ [p0] ∧
      cfg.Bundles = target.Bundles ++ [b0] ∧
      cfg.Channels = target.Channels ++ [c0] ∧
      cfg.Packages.length = target.Packages.length + 1 ∧
      cfg.Bundles.length = target.Bundles.length + 1 ∧
      cfg.Channels.length = target.Channels.length + 1 ∧
      (source.Others = [] → cfg.Others = target.Others) ∧
      (∀ o0 os, source.Others = o0 :: os →
        cfg.Others = target.Others ++ [o0]) := by
  refine ⟨_, addBundleToIndexImage_append target source p0 ps b0 bs c0 cs
    hP hB hC habs, rfl, rfl, rfl, by simp, by simp, by simp, ?_, ?_⟩
  · intro hO
    simp [hO]
  · intro o0 os hO
    simp [hO]

/-- Claim C6 witness: merging the `foo` bundle snapshot into the empty index
appends its records. -/
theorem mergeAppendCorrectnessInstance :
    bundleSrcCfg.Packages = pkgFoo :: [] ∧
    bundleSrcCfg.Bundles = bdlFoo :: [] ∧
    bundleSrcCfg.Channels = chStable :: [] ∧
    packageNotPresent emptyConfig bundleSrcCfg = true ∧
    (∃ cfg, addBundleToIndexImage emptyConfig bundleSrcCfg =
        MergeResult.ok cfg ∧
      cfg.Packages = emptyConfig.Packages ++ [pkgFoo] ∧
      cfg.Bundles = emptyConfig.Bundles ++ [bdlFoo] ∧
      cfg.Channels = emptyConfig.Channels ++ [chStable] ∧
      cfg.Packages.length = emptyConfig.Packages.length + 1 ∧
      cfg.Bundles.length = emptyConfig.Bundles.length + 1 ∧
      cfg.Channels.length = emptyConfig.Channels.length + 1 ∧
      (bundleSrcCfg.Others = [] → cfg.Others = emptyConfig.Others) ∧
      (∀ o0 os, bundleSrcCfg.Others = o0 :: os →
        cfg.Others = emptyConfig.Others ++ [o0])) :=
  ⟨rfl, rfl, rfl, by decide,
   mergeAppendCorrectness emptyConfig bundleSrcCfg pkgFoo [] bdlFoo []
     chStable [] rfl rfl rfl (by decide)⟩

/-- Claim C7: merging the same bundle snapshot twice is idempotent — once
the first merge has produced `cfg1` (whether by appending the package or by
finding it already present), the second merge finds the package
deep-structurally equal in `cfg1` and returns `cfg1` unchanged, so the
Package/Bundle/Channel counts are unchanged. -/
theorem mergeIdempotent (target source : DeclarativeConfig) (p0 : Package)
    (hp : source.Packages.head? = some p0) (cfg1 : DeclarativeConfig)
    (h1 : addBundleToIndexImage target source = MergeResult.ok cfg1) :
    addBundleToIndexImage cfg1 source = MergeResult.ok cfg1 := by
  by_cases hcond : (packageNotPresent target source
      && decide (0 < source.Bundles.length)
      && decide (0 < source.Channels.length)) = true
  · obtain ⟨⟨habs, hbl⟩, hcl⟩ := by simpa [Bool.and_eq_true] using hcond
    obtain ⟨ps, hP⟩ : ∃ ps, source.Packages = p0 :: ps := by
      cases hPk : source.Packages with
      | nil => rw [hPk] at hp; simp at hp
      | cons q qs =>
          rw [hPk] at hp
          simp at hp
          exact ⟨qs, by rw [hp]⟩
    obtain ⟨b0, bs, hB⟩ : ∃ b0 bs, source.Bundles = b0 :: bs := by
      cases hBn : source.Bundles with
      | nil => rw [hBn] at hbl; simp at hbl
      | cons b bs => exact ⟨b, bs, rfl⟩
    obtain ⟨c0, cs, hC⟩ : ∃ c0 cs, source.Channels = c0 :: cs := by
      cases hCn : source.Channels with
      | nil => rw [hCn] at hcl; simp at hcl
      | cons c cs => exact ⟨c, cs, rfl⟩
    rw [addBundleToIndexImage_append target source p0 ps b0 bs c0 cs hP hB hC
      habs] at h1
    injection h1 with h1
    subst h1
    apply addBundleToIndexImage_skip
    rw [packageNotPresent_after_append target source p0 hp]
    simp
  · have hcond2 : (packageNotPresent target source
        && decide (0 < source.Bundles.length)
        && decide (0 < source.Channels.length)) = false := by
      simpa using hcond
    rw [addBundleToIndexImage_skip target source hcond2] at h1
    injection h1 with h1
    subst h1
    exact addBundleToIndexImage_skip target source hcond2

/-- Claim C7 witness: the second merge of the `foo` bundle snapshot leaves
the once-merged index unchanged. -/
theorem mergeIdempotentInstance :
    bundleSrcCfg.Packages.head? = some pkgFoo ∧
    addBundleToIndexImage emptyConfig bundleSrcCfg =
      MergeResult.ok bundleSrcCfg ∧
    addBundleToIndexImage bundleSrcCfg bundleSrcCfg =
      MergeResult.ok bundleSrcCfg :=
  ⟨rfl, by decide,
   mergeIdempotent emptyConfig bundleSrcCfg pkgFoo rfl bundleSrcCfg
     (by decide)⟩

/-- Claim C8: a source snapshot with at least one package and one bundle but
no channels fails the append condition of install.go 248, so the merge
returns the target unchanged with no error — the rendered bundle is silently
dropped. -/
theorem mergeDropsChannellessSource (target source : DeclarativeConfig)
    (_hp : 0 < source.Packages.length) (_hb : 0 < source.Bundles.length)
    (hc : source.Channels = []) :
    addBundleToIndexImage target source = MergeResult.ok target := by
  apply addBundleToIndexImage_skip
  simp [hc]

/-- Claim C8 witness: a channel-less `foo` bundle snapshot merges into the
empty index as a no-op. -/
theorem mergeDropsChannellessSourceInstance :
    0 < (DeclarativeConfig.Packages
      { Packages := [pkgFoo], Channels := [], Bundles := [bdlFoo],
        Others := [] }).length ∧
    0 < (DeclarativeConfig.Bundles
      { Packages := [pkgFoo], Channels := [], Bundles := [bdlFoo],
        Others := [] }).length ∧
    addBundleToIndexImage emptyConfig
      { Packages := [pkgFoo], Channels := [], Bundles := [bdlFoo],
        Others := [] } = MergeResult.ok emptyConfig :=
  ⟨by decide, by decide,
   mergeDropsChannellessSource emptyConfig
     { Packages := [pkgFoo], Channels := [], Bundles := [bdlFoo],
       Others := [] } (by decide) (by decide) rfl⟩

/-- Claim C9: the minimal build for package `foo`, channel `stable` and
bundle `foo.v1.0.0` yields exactly one package named `foo`, one channel
named `stable` with schema `olm.channel` and a single entry `foo.v1.0.0`
carrying no predecessor relation, and the one rendered bundle
`foo.v1.0.0`. -/
theorem minimalBuildShape (rendered : DeclarativeConfig) (b : Bundle)
    (descr : String) (hr : rendered.Bundles = [b])
    (hname : b.Name = "foo.v1.0.0") :
    ∃ cfg, createFBC fooMinimalCtx rendered descr = CreateResult.ok cfg ∧
      cfg.Packages.length = 1 ∧ cfg.Packages.map Package.Name = ["foo"] ∧
      cfg.Channels.length = 1 ∧ cfg.Channels.map Channel.Name = ["stable"] ∧
      cfg.Channels.map Channel.Schema = ["olm.channel"] ∧
      cfg.Channels.map Channel.Entries = [[entryFoo]] ∧
      entryFoo.Name = "foo.v1.0.0" ∧ entryFoo.Replaces = "" ∧
      entryFoo.Skips = [] ∧ entryFoo.SkipRange = "" ∧
      cfg.Bundles.length = 1 ∧
      cfg.Bundles.map Bundle.Name = ["foo.v1.0.0"] := by
  have hctx : fooMinimalCtx =
      { BundleImage := "registry.example/foo-bundle:v1.0.0",
        Package := "foo", DefaultChannel := "stable",
        FBCName := "/tmp/foo-index/testFBC", FBCDirPath := "",
        FBCDirName := "/tmp/foo-index", ChannelSchema := "olm.channel",
        ChannelName := "stable", ChannelEntries := [entryFoo] } := by decide
  rw [hctx]
  unfold createFBC
  rw [hr]
  refine ⟨_, rfl, ?_, ?_, ?_, ?_, ?_, ?_, by decide, by decide, by decide,
    by decide, ?_, ?_⟩ <;> simp [initRun, hname]

/-- Claim C9 witness: the minimal build shape at a concrete render result
holding exactly the `foo.v1.0.0` bundle. -/
theorem minimalBuildShapeInstance :
    DeclarativeConfig.Bundles
      { Packages := [], Channels := [], Bundles := [bdlFoo], Others := [] } =
      [bdlFoo] ∧
    bdlFoo.Name = "foo.v1.0.0" ∧
    (∃ cfg, createFBC fooMinimalCtx
        { Packages := [], Channels := [], Bundles := [bdlFoo], Others := [] }
        "" = CreateResult.ok cfg ∧
      cfg.Packages.length = 1 ∧ cfg.Packages.map Package.Name = ["foo"] ∧
      cfg.Channels.length = 1 ∧ cfg.Channels.map Channel.Name = ["stable"] ∧
      cfg.Channels.map Channel.Schema = ["olm.channel"] ∧
      cfg.Channels.map Channel.Entries = [[entryFoo]] ∧
      entryFoo.Name = "foo.v1.0.0" ∧ entryFoo.Replaces = "" ∧
      entryFoo.Skips = [] ∧ entryFoo.SkipRange = "" ∧
      cfg.Bundles.length = 1 ∧
      cfg.Bundles.map Bundle.Name = ["foo.v1.0.0"]) :=
  ⟨rfl, rfl,
   minimalBuildShape
     { Packages := [], Channels := [], Bundles := [bdlFoo], Others := [] }
     bdlFoo "" rfl rfl⟩

/-- Claim C10 counterexample: the empty snapshot passes every structural
check of the validator, yet serializes to the empty string — "serializing a
snapshot that passed validation never yields empty text" is false. -/
theorem validatedEmptySnapshotSerializesEmpty :
    validateSnapshot emptyConfig = true ∧
    stringifyDecConfig emptyConfig = "" :=
  ⟨by decide, rfl⟩

/-- Claim C10 (amended): serializing a validated snapshot can yield empty
text (the empty snapshot passes validation and serializes to nothing);
whenever the serialized text is empty, `setup` fails with the
empty-content error, and any content it does hand to the installer is
non-empty and equal to the serialized snapshot. -/
theorem emptyContentRejected (declcfg : DeclarativeConfig) :
    (stringifyDecConfig declcfg = "" →
      setupFinalize declcfg = SetupResult.errEmptyContent) ∧
    (∀ content, setupFinalize declcfg = SetupResult.ok content →
      content ≠ "" ∧ content = stringifyDecConfig declcfg) := by
  unfold setupFinalize
  constructor
  · intro h
    simp [h]
  · intro content hc
    by_cases hb : (stringifyDecConfig declcfg == "") = true
    · rw [if_pos hb] at hc
      cases hc
    · rw [if_neg hb] at hc
      injection hc with hc
      subst hc
      refine ⟨?_, rfl⟩
      intro hz
      exact hb (by simp [hz])

/-- Claim C10 witness: the guard fires on the empty snapshot, and the `foo`
snapshot is handed on as its non-empty serialization. -/
theorem emptyContentRejectedInstance :
    stringifyDecConfig emptyConfig = "" ∧
    setupFinalize emptyConfig = SetupResult.errEmptyContent ∧
    setupFinalize bundleSrcCfg =
      SetupResult.ok (stringifyDecConfig bundleSrcCfg) ∧
    stringifyDecConfig bundleSrcCfg ≠ "" :=
  ⟨rfl, (emptyContentRejected emptyConfig).1 rfl, rfl,
   ((emptyContentRejected bundleSrcCfg).2 (stringifyDecConfig bundleSrcCfg)
     rfl).1⟩

end OperatorSDKBundle
